import Mathlib

/-!
Verification of the score-submission handler in `api/submit-score.js`.

The handler is a single linear function: method check, payload validation,
store read, merge (push + stable sort descending by `shrimps` + slice to 10),
store write, response.  We embed the payload as untyped JSON values (mirroring
the dynamically typed request body), the validator, the merge policy, and the
handler's control flow with explicit effect flags for the two outbound store
calls.  JavaScript numbers are modelled as rationals: every claim at issue
concerns ordering and comparison with integer literals, where rational and
IEEE-754 semantics agree on the values involved.
-/

/-- A JSON value as it can appear in the parsed request body (`req.body`).
The handler only ever reads truthiness, `typeof`, the numeric value and the
`.length` property of a body field, so an array is represented by its length
(its elements are never inspected by the source) and nested objects, whose
`.length` is `undefined` like that of the other non-string cases, are not
separated out. -/
inductive JValue where
  | null : JValue
  | bool : Bool → JValue
  | num : Rat → JValue
  | str : String → JValue
  | arr : Nat → JValue
deriving DecidableEq, Repr

/-- The parsed request body.  `const { name, shrimps } = req.body` reads
exactly the two fields `name` and `shrimps`; a missing field destructures to
`undefined`, modelled as `none`.  All other fields of the JSON object
(including any client-supplied `date`) are kept in `extra` and are provably
never read. -/
structure Payload where
  name : Option JValue
  shrimps : Option JValue
  extra : List (String × JValue)
deriving DecidableEq, Repr

/-- JavaScript truthiness of a possibly-undefined value, as used by `!name`:
`undefined`, `null`, `false`, `0` and the empty string are falsy; every other
value that can occur in a parsed JSON body is truthy. -/
def jsTruthy : Option JValue → Bool
  | none => false
  | some JValue.null => false
  | some (JValue.bool b) => b
  | some (JValue.num q) => decide (q ≠ 0)
  | some (JValue.str s) => !s.isEmpty
  | some (JValue.arr _) => true

/-- The JavaScript `.length` property: defined for strings and arrays,
`undefined` (`none`) for every other value. -/
def jsLength : Option JValue → Option Nat
  | some (JValue.str s) => some s.length
  | some (JValue.arr n) => some n
  | _ => none

/-- `typeof shrimps !== 'number'` is false exactly on numeric values. -/
def jsIsNumber : Option JValue → Bool
  | some (JValue.num _) => true
  | _ => false

/-- The numeric value of a JSON number (only consulted after the
`typeof shrimps !== 'number'` guard has passed in the source). -/
def jsNumValue : Option JValue → Rat
  | some (JValue.num q) => q
  | _ => 0

/-- The comparison `x > n` where `x` may be `undefined`: in JavaScript
`undefined > n` evaluates to `false`.  Used for `name.length > 20`. -/
def jsGtNat : Option Nat → Nat → Bool
  | none, _ => false
  | some m, n => decide (m > n)

/-- The validation guard of the source, line 24:
`!name || typeof shrimps !== 'number' || shrimps < 1 || name.length > 20`.
`true` means the payload is rejected with status 400. -/
def invalidData (name shrimps : Option JValue) : Bool :=
  !jsTruthy name || !jsIsNumber shrimps || decide (jsNumValue shrimps < 1)
    || jsGtNat (jsLength name) 20

/-- A score entry as stored on the leaderboard: the source builds
`{ name, shrimps, date: new Date().toISOString() }`, where `name` is the raw
JSON value taken from the body (the source never checks that it is a string),
`shrimps` is the validated number, and `date` is a server-side timestamp. -/
structure ScoreEntry where
  name : JValue
  shrimps : Rat
  date : String
deriving DecidableEq, Repr

/-- One step of the stable sort: insert `x` into `l` before the first element
whose `shrimps` is not greater than `x.shrimps`.  Folded over the list this
yields exactly the unique stable descending order, which is what
`Array.prototype.sort` with comparator `(a, b) => b.shrimps - a.shrimps`
produces (ECMAScript sort is stable, and the comparator orders by `shrimps`
descending). -/
def insertEntry (x : ScoreEntry) : List ScoreEntry → List ScoreEntry
  | [] => [x]
  | y :: ys => if y.shrimps ≤ x.shrimps then x :: y :: ys else y :: insertEntry x ys

/-- The stable descending-by-`shrimps` sort performed by
`leaders.sort((a, b) => b.shrimps - a.shrimps)` on line 53. -/
def sortDesc (l : List ScoreEntry) : List ScoreEntry :=
  l.foldr insertEntry []

/-- The merge policy, lines 52 to 54 of the source:
`leaders.push(newScore); leaders.sort((a, b) => b.shrimps - a.shrimps);
leaders = leaders.slice(0, 10);`. -/
def merge (leaders : List ScoreEntry) (newScore : ScoreEntry) : List ScoreEntry :=
  (sortDesc (leaders ++ [newScore])).take 10

/-- Line 48 of the source: `const newScore = { name, shrimps, date: new
Date().toISOString() }`.  The `name` and `shrimps` fields come from the body,
the `date` field is the server clock reading `now`; no client field is
consulted for the date. -/
def mkNewScore (now : String) (body : Payload) : ScoreEntry :=
  { name := body.name.getD JValue.null
    shrimps := jsNumValue body.shrimps
    date := now }

/-- Outcome of the store read (`GET` to the document store): `ok` is
`getResponse.ok`, and `leaders` is the `leaders` field of the returned
document, `none` when the field is absent (in which case line 44 of the
source, `currentData.record.leaders || []`, substitutes the empty list). -/
structure GetResult where
  ok : Bool
  leaders : Option (List ScoreEntry)
deriving DecidableEq, Repr

/-- The observable outcome of one handler invocation: the HTTP status of the
response, whether the store read (`GET`) and store write (`PUT`) calls were
issued, and the `leaders` array sent in the `PUT` body when a write was
attempted. -/
structure HResult where
  status : Nat
  fetchCalled : Bool
  putCalled : Bool
  written : Option (List ScoreEntry)
deriving DecidableEq, Repr

/-- The request handler of `api/submit-score.js`, as a function of the server
clock `now`, the HTTP method, the parsed body, the store read outcome `g` and
the store write outcome `putOk` (`putResponse.ok`).  Each branch mirrors the
corresponding early return of the source, and the effect flags record which
outbound calls were made before responding. -/
def handler (now method : String) (body : Payload) (g : GetResult) (putOk : Bool) : HResult :=
  if method ≠ "POST" then
    { status := 405, fetchCalled := false, putCalled := false, written := none }
  else if invalidData body.name body.shrimps then
    { status := 400, fetchCalled := false, putCalled := false, written := none }
  else if !g.ok then
    { status := 500, fetchCalled := true, putCalled := false, written := none }
  else
    let leaders := g.leaders.getD []
    let newScore := mkNewScore now body
    let merged := merge leaders newScore
    if !putOk then
      { status := 500, fetchCalled := true, putCalled := true, written := some merged }
    else
      { status := 200, fetchCalled := true, putCalled := true, written := some merged }

/-! ### Properties of the stable descending sort -/

theorem insertEntry_perm (x : ScoreEntry) (l : List ScoreEntry) :
    List.Perm (insertEntry x l) (x :: l) := by
  induction l with
  | nil => simp [insertEntry]
  | cons y ys ih =>
    by_cases h : y.shrimps ≤ x.shrimps
    · simp [insertEntry, h]
    · simp only [insertEntry, if_neg h]
      exact (ih.cons y).trans (List.Perm.swap x y ys)

theorem sortDesc_perm (l : List ScoreEntry) : List.Perm (sortDesc l) l := by
  induction l with
  | nil => rfl
  | cons x xs ih =>
    show List.Perm (insertEntry x (sortDesc xs)) (x :: xs)
    exact (insertEntry_perm x (sortDesc xs)).trans (ih.cons x)

theorem mem_insertEntry {z x : ScoreEntry} {l : List ScoreEntry} :
    z ∈ insertEntry x l ↔ z = x ∨ z ∈ l := by
  rw [(insertEntry_perm x l).mem_iff, List.mem_cons]

theorem length_sortDesc (l : List ScoreEntry) : (sortDesc l).length = l.length :=
  (sortDesc_perm l).length_eq

theorem pairwise_insertEntry {x : ScoreEntry} {l : List ScoreEntry}
    (h : l.Pairwise (fun a b => b.shrimps ≤ a.shrimps)) :
    (insertEntry x l).Pairwise (fun a b => b.shrimps ≤ a.shrimps) := by
  induction l with
  | nil => simp [insertEntry]
  | cons y ys ih =>
    rcases List.pairwise_cons.mp h with ⟨hy, hys⟩
    by_cases hc : y.shrimps ≤ x.shrimps
    · simp only [insertEntry, if_pos hc]
      refine List.pairwise_cons.mpr ⟨?_, h⟩
      intro z hz
      rcases List.mem_cons.mp hz with rfl | hz
      · exact hc
      · exact le_trans (hy z hz) hc
    · simp only [insertEntry, if_neg hc]
      refine List.pairwise_cons.mpr ⟨?_, ih hys⟩
      intro z hz
      rcases mem_insertEntry.mp hz with rfl | hz
      · exact (not_le.mp hc).le
      · exact hy z hz

theorem sortDesc_pairwise (l : List ScoreEntry) :
    (sortDesc l).Pairwise (fun a b => b.shrimps ≤ a.shrimps) := by
  induction l with
  | nil => simp [sortDesc]
  | cons x xs ih =>
    show (insertEntry x (sortDesc xs)).Pairwise _
    exact pairwise_insertEntry ih

theorem filter_insertEntry (v : Rat) (x : ScoreEntry) (l : List ScoreEntry) :
    (insertEntry x l).filter (fun z => decide (z.shrimps = v)) =
      if x.shrimps = v then x :: l.filter (fun z => decide (z.shrimps = v))
      else l.filter (fun z => decide (z.shrimps = v)) := by
  induction l with
  | nil => by_cases hx : x.shrimps = v <;> simp [insertEntry, hx]
  | cons y ys ih =>
    by_cases hc : y.shrimps ≤ x.shrimps
    · simp only [insertEntry, if_pos hc]
      by_cases hx : x.shrimps = v <;> simp [List.filter_cons, hx]
    · simp only [insertEntry, if_neg hc]
      by_cases hx : x.shrimps = v
      · have hyv : ¬(y.shrimps = v) := fun hv => hc (le_of_eq (hv.trans hx.symm))
        simp [List.filter_cons, hx, hyv, ih]
      · by_cases hy : y.shrimps = v <;> simp [List.filter_cons, hx, hy, ih]

theorem filter_sortDesc (v : Rat) (l : List ScoreEntry) :
    (sortDesc l).filter (fun z => decide (z.shrimps = v)) =
      l.filter (fun z => decide (z.shrimps = v)) := by
  induction l with
  | nil => rfl
  | cons x xs ih =>
    show (insertEntry x (sortDesc xs)).filter _ = _
    rw [filter_insertEntry]
    by_cases hx : x.shrimps = v <;> simp [hx, ih, List.filter_cons]

/-! ### Claims about the merge policy -/

/-- Claim C2: for every leaderboard `L` with `|L| ≤ 10` and every score entry
`e`, the merge result `merge L e` has length at most 10 (entries beyond rank
10 are discarded by the `slice(0, 10)`). -/
theorem C2_merge_length_le (L : List ScoreEntry) (e : ScoreEntry)
    (h : L.length ≤ 10) : (merge L e).length ≤ 10 := by
  show ((sortDesc (L ++ [e])).take 10).length ≤ 10
  rw [List.length_take]
  exact min_le_left _ _

/-- Witness for C2 at a concrete singleton leaderboard. -/
theorem C2_merge_length_le_witness :
    (merge [⟨JValue.str "A", 3, "d1"⟩] ⟨JValue.str "B", 7, "d2"⟩).length ≤ 10 :=
  C2_merge_length_le [⟨JValue.str "A", 3, "d1"⟩] ⟨JValue.str "B", 7, "d2"⟩ (by decide)

/-- Claim C3: for every leaderboard `L` and score entry `e`, the merge result
is sorted in descending order of the `shrimps` field: any entry is
greater-or-equal in `shrimps` than every entry after it. -/
theorem C3_merge_sorted (L : List ScoreEntry) (e : ScoreEntry) :
    (merge L e).Pairwise (fun a b => b.shrimps ≤ a.shrimps) :=
  List.Pairwise.sublist (List.take_sublist 10 _) (sortDesc_pairwise (L ++ [e]))

/-- Claim C4: for every leaderboard `L` with `|L| < 10` and every score entry
`e`, the incoming entry `e` is a member of `merge L e`: no entry is lost when
the board is under capacity. -/
theorem C4_under_capacity (L : List ScoreEntry) (e : ScoreEntry)
    (h : L.length < 10) : e ∈ merge L e := by
  have hlen : (sortDesc (L ++ [e])).length ≤ 10 := by
    rw [length_sortDesc, List.length_append, List.length_singleton]
    omega
  show e ∈ (sortDesc (L ++ [e])).take 10
  rw [List.take_of_length_le hlen]
  exact (sortDesc_perm (L ++ [e])).mem_iff.mpr (List.mem_append_right L (List.mem_singleton_self e))

/-- Witness for C4 at a concrete singleton leaderboard. -/
theorem C4_under_capacity_witness :
    (⟨JValue.str "B", 7, "d2"⟩ : ScoreEntry) ∈
      merge [⟨JValue.str "A", 3, "d1"⟩] ⟨JValue.str "B", 7, "d2"⟩ :=
  C4_under_capacity [⟨JValue.str "A", 3, "d1"⟩] ⟨JValue.str "B", 7, "d2"⟩ (by decide)

/-- Claim C10: the sort inside the merge policy is stable.  First conjunct:
for every value `v`, the entries of the sorted combined list with
`shrimps = v` appear in exactly their insertion order (`L` then `e`).  Second
conjunct: the incoming entry `e` is placed after every existing entry of `L`
with the same `shrimps` value.  Third conjunct: truncation keeps the
preserved relative order inside `merge L e` itself (the surviving tied
entries form a sublist, in order, of the tied entries in insertion order). -/
theorem C10_stable_sort (L : List ScoreEntry) (e : ScoreEntry) (v : Rat) :
    (sortDesc (L ++ [e])).filter (fun z => decide (z.shrimps = v)) =
      (L ++ [e]).filter (fun z => decide (z.shrimps = v))
    ∧ (sortDesc (L ++ [e])).filter (fun z => decide (z.shrimps = e.shrimps)) =
      L.filter (fun z => decide (z.shrimps = e.shrimps)) ++ [e]
    ∧ ((merge L e).filter (fun z => decide (z.shrimps = v))).Sublist
        ((L ++ [e]).filter (fun z => decide (z.shrimps = v))) := by
  refine ⟨filter_sortDesc v (L ++ [e]), ?_, ?_⟩
  · rw [filter_sortDesc, List.filter_append]
    simp
  · have h := List.Sublist.filter (fun z => decide (z.shrimps = v))
      (List.take_sublist 10 (sortDesc (L ++ [e])))
    rw [filter_sortDesc] at h
    exact h

/-! ### Claims about the handler's control flow -/

/-- Claim C5: for every request whose HTTP method is not POST, the handler
responds 405 immediately and performs no store access: neither the fetch
(`GET`) nor the persist (`PUT`) call is invoked. -/
theorem C5_non_post_rejected (now method : String) (body : Payload)
    (g : GetResult) (putOk : Bool) (h : method ≠ "POST") :
    handler now method body g putOk =
      { status := 405, fetchCalled := false, putCalled := false, written := none } := by
  simp [handler, h]

/-- Witness for C5: a concrete GET request. -/
theorem C5_non_post_rejected_witness :
    handler "2024-05-01T00:00:00Z" "GET" ⟨some (JValue.str "A"), some (JValue.num 5), []⟩
        ⟨true, some []⟩ true =
      { status := 405, fetchCalled := false, putCalled := false, written := none } :=
  C5_non_post_rejected "2024-05-01T00:00:00Z" "GET"
    ⟨some (JValue.str "A"), some (JValue.num 5), []⟩ ⟨true, some []⟩ true (by decide)

/-- Claim C6: for every POST request whose payload fails validation, the
handler responds 400 and makes zero outbound calls to the document store:
neither the fetch nor the persist flag is set and nothing is written. -/
theorem C6_invalid_no_store_access (now : String) (body : Payload)
    (g : GetResult) (putOk : Bool)
    (h : invalidData body.name body.shrimps = true) :
    handler now "POST" body g putOk =
      { status := 400, fetchCalled := false, putCalled := false, written := none } := by
  simp [handler, h]

/-- Witness for C6: the end-to-end scenario `{name: "", shrimps: 5}`. -/
theorem C6_invalid_no_store_access_witness :
    handler "2024-05-01T00:00:00Z" "POST" ⟨some (JValue.str ""), some (JValue.num 5), []⟩
        ⟨true, some []⟩ true =
      { status := 400, fetchCalled := false, putCalled := false, written := none } :=
  C6_invalid_no_store_access "2024-05-01T00:00:00Z"
    ⟨some (JValue.str ""), some (JValue.num 5), []⟩ ⟨true, some []⟩ true (by decide)

/-- Claim C7: for every POST request with a valid payload, if the store read
returns a non-success status then the handler responds 500 and the store
write is never attempted (`putCalled = false`, nothing written). -/
theorem C7_read_failure_no_write (now : String) (body : Payload)
    (leaders : Option (List ScoreEntry)) (putOk : Bool)
    (h : invalidData body.name body.shrimps = false) :
    handler now "POST" body ⟨false, leaders⟩ putOk =
      { status := 500, fetchCalled := true, putCalled := false, written := none } := by
  simp [handler, h]

/-- Witness for C7: a valid payload against a failing store read. -/
theorem C7_read_failure_no_write_witness :
    handler "2024-05-01T00:00:00Z" "POST" ⟨some (JValue.str "A"), some (JValue.num 5), []⟩
        ⟨false, some []⟩ true =
      { status := 500, fetchCalled := true, putCalled := false, written := none } :=
  C7_read_failure_no_write "2024-05-01T00:00:00Z"
    ⟨some (JValue.str "A"), some (JValue.num 5), []⟩ (some []) true (by decide)

/-- Claim C8: when the store read succeeds but the returned document lacks the
`leaders` field, the handler behaves exactly as if the document held an empty
leaderboard: it proceeds to merge and persist (fetch and put both issued, the
merge of the empty board with the new entry is written) instead of signalling
an error. -/
theorem C8_missing_leaders_default (now : String) (body : Payload) (putOk : Bool)
    (h : invalidData body.name body.shrimps = false) :
    handler now "POST" body ⟨true, none⟩ putOk = handler now "POST" body ⟨true, some []⟩ putOk
    ∧ (handler now "POST" body ⟨true, none⟩ putOk).fetchCalled = true
    ∧ (handler now "POST" body ⟨true, none⟩ putOk).putCalled = true
    ∧ (handler now "POST" body ⟨true, none⟩ putOk).written =
        some (merge [] (mkNewScore now body)) := by
  cases putOk <;> simp [handler, h]

/-- Witness for C8: a concrete valid submission against a document with no
`leaders` field. -/
theorem C8_missing_leaders_default_witness :
    handler "2024-05-01T00:00:00Z" "POST" ⟨some (JValue.str "A"), some (JValue.num 5), []⟩
        ⟨true, none⟩ true =
      handler "2024-05-01T00:00:00Z" "POST" ⟨some (JValue.str "A"), some (JValue.num 5), []⟩
        ⟨true, some []⟩ true
    ∧ (handler "2024-05-01T00:00:00Z" "POST" ⟨some (JValue.str "A"), some (JValue.num 5), []⟩
        ⟨true, none⟩ true).fetchCalled = true
    ∧ (handler "2024-05-01T00:00:00Z" "POST" ⟨some (JValue.str "A"), some (JValue.num 5), []⟩
        ⟨true, none⟩ true).putCalled = true
    ∧ (handler "2024-05-01T00:00:00Z" "POST" ⟨some (JValue.str "A"), some (JValue.num 5), []⟩
        ⟨true, none⟩ true).written =
        some (merge [] (mkNewScore "2024-05-01T00:00:00Z"
          ⟨some (JValue.str "A"), some (JValue.num 5), []⟩)) :=
  C8_missing_leaders_default "2024-05-01T00:00:00Z"
    ⟨some (JValue.str "A"), some (JValue.num 5), []⟩ true (by decide)

/-- Claim C9: the `date` of the stored entry is assigned by the server, and
two requests that agree on the `name` and `shrimps` fields of the body (but
may differ in any other field, such as a client-supplied `date`) produce
identical handler outcomes, including the leaderboard written to the store. -/
theorem C9_client_date_ignored (now method : String) (b1 b2 : Payload)
    (g : GetResult) (putOk : Bool)
    (hn : b1.name = b2.name) (hs : b1.shrimps = b2.shrimps) :
    handler now method b1 g putOk = handler now method b2 g putOk
    ∧ (mkNewScore now b1).date = now := by
  refine ⟨?_, rfl⟩
  simp only [handler, mkNewScore, hn, hs]

/-- Witness for C9: two concrete bodies differing only in a client-supplied
`date` field. -/
theorem C9_client_date_ignored_witness :
    handler "2024-05-01T00:00:00Z" "POST"
        ⟨some (JValue.str "A"), some (JValue.num 5), [("date", JValue.str "1999-01-01")]⟩
        ⟨true, some []⟩ true =
      handler "2024-05-01T00:00:00Z" "POST"
        ⟨some (JValue.str "A"), some (JValue.num 5), []⟩ ⟨true, some []⟩ true
    ∧ (mkNewScore "2024-05-01T00:00:00Z"
        ⟨some (JValue.str "A"), some (JValue.num 5), [("date", JValue.str "1999-01-01")]⟩).date =
        "2024-05-01T00:00:00Z" :=
  C9_client_date_ignored "2024-05-01T00:00:00Z" "POST"
    ⟨some (JValue.str "A"), some (JValue.num 5), [("date", JValue.str "1999-01-01")]⟩
    ⟨some (JValue.str "A"), some (JValue.num 5), []⟩ ⟨true, some []⟩ true rfl rfl

/-! ### Claim C1: the validator -/

/-- Whether a body field holds a text (string) value. -/
def jsIsString : Option JValue → Bool
  | some (JValue.str _) => true
  | _ => false

/-- A payload whose `name` is the number `42` rather than a text value. -/
def numericNameBody : Payload :=
  { name := some (JValue.num 42), shrimps := some (JValue.num 5), extra := [] }

/-- Counterexample to claim C1 as stated: the payload `{name: 42, shrimps: 5}`
has a `name` that is present but is not a text value, yet the validation
guard accepts it (the source checks `!name` and `name.length > 20` but never
`typeof name`), and the handler proceeds to a 200 response instead of the 400
the claim requires for every payload violating its rules. -/
theorem C1_counterexample :
    invalidData numericNameBody.name numericNameBody.shrimps = false
    ∧ jsIsString numericNameBody.name = false
    ∧ (handler "2024-05-01T00:00:00Z" "POST" numericNameBody
        ⟨true, some []⟩ true).status = 200 :=
  ⟨by decide, by decide, by decide⟩

theorem shrimps_ok_iff (s : Option JValue) :
    (jsIsNumber s = true ∧ ¬(jsNumValue s < 1)) ↔
      ∃ q : Rat, s = some (JValue.num q) ∧ 1 ≤ q := by
  cases s with
  | none => simp [jsIsNumber]
  | some v => cases v <;> simp [jsIsNumber, jsNumValue, not_lt]

theorem jsGtNat_eq_false_iff (o : Option Nat) (k : Nat) :
    jsGtNat o k = false ↔ o.getD 0 ≤ k := by
  cases o <;> simp [jsGtNat, not_lt]

/-- Claim C1 (amended): the validator accepts a payload if and only if `name`
is truthy (present and not null, false, 0 or the empty string) and its
JavaScript `.length` — defined only for text and array values, `undefined`
otherwise, with `undefined > 20` false — does not exceed 20, and `shrimps` is
present, numeric, and at least 1.  In particular every payload with a text
`name` of length 1 to 20 and numeric `shrimps ≥ 1` is accepted, but a truthy
non-text `name` without an over-long `.length` (a number, `true`, or a short
array) is accepted as well.  Every payload the guard rejects receives a 400
response. -/
theorem C1_validator_amended (body : Payload) :
    (invalidData body.name body.shrimps = false ↔
      (jsTruthy body.name = true
        ∧ (∃ q : Rat, body.shrimps = some (JValue.num q) ∧ 1 ≤ q)
        ∧ (jsLength body.name).getD 0 ≤ 20))
    ∧ (invalidData body.name body.shrimps = true →
        ∀ (now : String) (g : GetResult) (putOk : Bool),
          (handler now "POST" body g putOk).status = 400) := by
  constructor
  · rw [← shrimps_ok_iff, ← jsGtNat_eq_false_iff]
    simp [invalidData, and_assoc]
  · intro h now g putOk
    simp [handler, h]

/-- Witness for C1 (amended): the rejected payload `{name: "", shrimps: 5}`
receives a 400 response. -/
theorem C1_validator_amended_witness :
    (handler "2024-05-01T00:00:00Z" "POST"
        ⟨some (JValue.str ""), some (JValue.num 5), []⟩ ⟨true, some []⟩ true).status = 400 :=
  (C1_validator_amended ⟨some (JValue.str ""), some (JValue.num 5), []⟩).2 (by decide)
    "2024-05-01T00:00:00Z" ⟨true, some []⟩ true
